import Mathlib

/-!
Verification development for the "unstable-flappy" simulation core.

The TypeScript source is shallowly embedded: JS numbers are modelled as
rationals, `Math.sin`, `Math.random` and the `Date.now` / frame clocks are
modelled as explicit oracle inputs (a `JsEnv` record), so every definition
below is executable.  JS `%` on numbers truncates toward zero (sign of the
dividend); `jsMod` below reproduces that.  `Math.floor` is `Int.floor`.
-/

set_option linter.unusedVariables false

/-- JS truncation toward zero of a rational (the rounding used by `%`). -/
def jsTrunc (q : ℚ) : ℤ :=
  if q < 0 then -⌊-q⌋ else ⌊q⌋

/-- JS `%` on numbers: `a - b * trunc (a / b)` (sign follows the dividend). -/
def jsMod (a b : ℚ) : ℚ :=
  a - b * (jsTrunc (a / b) : ℚ)

/-- The double constant `Math.PI` as written in decimal. -/
def MathPI : ℚ := 3.141592653589793

/-! ### Config.ts constants -/

namespace CANVAS

def WIDTH : ℚ := 400

def HEIGHT : ℚ := 600

end CANVAS

namespace BIRD_CONST

def WIDTH : ℚ := 34

def HEIGHT : ℚ := 24

def X_POSITION : ℚ := 80

def INITIAL_Y : ℚ := 250

end BIRD_CONST

namespace PHYSICS

def GRAVITY : ℚ := 0.375

def FLAP_FORCE : ℚ := -7.5

def HEAVY_GRAVITY : ℚ := 0.45

def FLOATY_GRAVITY : ℚ := 0.26

def MAX_VELOCITY : ℚ := 8

def MIN_VELOCITY : ℚ := -10

end PHYSICS

namespace PIPES

def WIDTH : ℚ := 52

def GAP_SIZE : ℚ := 200

def MIN_GAP_SIZE : ℚ := 140

def GAP_SHRINK_PER_PHASE : ℚ := 5

def SPAWN_INTERVAL : ℚ := 2000

def SPEED : ℚ := 2.0

def MIN_GAP_Y : ℚ := 100

end PIPES

namespace PHASE

def DURATION : ℚ := 15

end PHASE

namespace WIND

def UPWARD : ℚ := -0.075

def DOWNWARD : ℚ := 0.075

def GUST_INTERVAL : ℚ := 2500

end WIND

namespace EFFECTS

def CONTROL_FLIP_DURATION : ℚ := 5000

def CONTROL_FLIP_WARNING : ℚ := 2000

def GHOST_PIPE_BASE_PROBABILITY : ℚ := 0.1

def GHOST_PIPE_PHASE_MULTIPLIER : ℚ := 0.1

def DELAYED_COLLISION_MS : ℚ := 300

def SPEED_DRIFT_MAX : ℚ := 0.15

end EFFECTS

namespace SLOW_MOTION

def PHASE_CHANGE_DURATION : ℚ := 1500

def TIME_SCALE : ℚ := 0.5

end SLOW_MOTION

namespace PHASE_EFFECTS

def GRAVITY_DRIFT_CYCLE_TIME : ℚ := 4

def GRAVITY_LOW_MULTIPLIER : ℚ := 0.65

def GRAVITY_HIGH_MULTIPLIER : ℚ := 1.45

def GRAVITY_WOBBLE_INTENSITY : ℚ := 3

def OSCILLATION_AMPLITUDE : ℚ := 55

def OSCILLATION_SPEED : ℚ := 0.02

end PHASE_EFFECTS

/-! ### Types.ts data model -/

/-- The actor (Types.ts `Bird`, with the patched horizontal-wind field). -/
structure Bird where
  x : ℚ
  y : ℚ
  velocityY : ℚ
  velocityX : ℚ
  width : ℚ
  height : ℚ
deriving DecidableEq

/-- Types.ts `Pipe`. -/
structure Pipe where
  x : ℚ
  gapY : ℚ
  gapSize : ℚ
  isGhost : Bool
  oscillationOffset : ℚ
  oscillationSeed : ℚ
  passed : Bool
  scored : Bool
  spawnTime : ℚ
  hasDelayedCollision : Bool
deriving DecidableEq

/-- ModeConfig.ts record (includes the flip-force field used by the
    CHAOS/DEMO profiles). -/
structure ModeConfig where
  pipeGapMultiplier : ℚ
  pipeSpawnMultiplier : ℚ
  pipeSpeedMultiplier : ℚ
  gravityMultiplier : ℚ
  windForceMultiplier : ℚ
  oscillationAmplitudeMultiplier : ℚ
  controlFlipDurationMultiplier : ℚ
  controlFlipForceMultiplier : ℚ
  ghostPipeOpacity : ℚ
  collisionForgivenessMs : ℚ
deriving DecidableEq

/-- Types.ts `PhaseConfig` feature flags. -/
structure PhaseConfig where
  gravityDrift : Bool
  pipeOscillation : Bool
  windForce : Bool
  controlFlip : Bool
  ghostPipes : Bool
  speedDrift : Bool
  visualGlitch : Bool
  allUnstable : Bool
deriving DecidableEq

/-- Types.ts `GameMode`. -/
inductive GameMode where
  | CHAOS
  | DEMO
deriving DecidableEq

/-- The patched `calculateGravity` return value `{ gravity, changed }`. -/
structure GravityResult where
  gravity : ℚ
  changed : Bool
deriving DecidableEq

/-- `checkAndScorePipe` return value `{ scored, pipe }`. -/
structure ScoreResult where
  scored : Bool
  pipe : Pipe
deriving DecidableEq

/-- Collision kind reported by `checkAllCollisions`. -/
inductive CollisionType where
  | none
  | pipe
  | ground
  | ceiling
deriving DecidableEq

/-- `checkAllCollisions` return value `{ hit, type }`. -/
structure CollisionResult where
  hit : Bool
  type : CollisionType
deriving DecidableEq

/-! ### ModeConfig.ts -/

/-- CHAOS mode profile: base values. -/
def CHAOS_MODE_CONFIG : ModeConfig :=
  { pipeGapMultiplier := 1.0
    pipeSpawnMultiplier := 1.0
    pipeSpeedMultiplier := 1.0
    gravityMultiplier := 1.0
    windForceMultiplier := 1.0
    oscillationAmplitudeMultiplier := 1.0
    controlFlipDurationMultiplier := 1.0
    controlFlipForceMultiplier := 1.0
    ghostPipeOpacity := 0.4
    collisionForgivenessMs := 0 }

/-- DEMO mode profile: softened values. -/
def DEMO_MODE_CONFIG : ModeConfig :=
  { pipeGapMultiplier := 1.6
    pipeSpawnMultiplier := 1.25
    pipeSpeedMultiplier := 0.7
    gravityMultiplier := 0.8
    windForceMultiplier := 0.6
    oscillationAmplitudeMultiplier := 0.75
    controlFlipDurationMultiplier := 0.3
    controlFlipForceMultiplier := 0.5
    ghostPipeOpacity := 0.3
    collisionForgivenessMs := 120 }

/-- `getModeConfig`. -/
def getModeConfig (mode : GameMode) : ModeConfig :=
  match mode with
  | GameMode.CHAOS => CHAOS_MODE_CONFIG
  | GameMode.DEMO => DEMO_MODE_CONFIG

/-! ### PhaseManager.ts -/

/-- `getCurrentPhase`: `Math.floor(timeAlive / PHASE.DURATION) + 1`. -/
def getCurrentPhase (timeAlive : ℚ) : ℤ :=
  ⌊timeAlive / PHASE.DURATION⌋ + 1

/-- The spec formula for the phase function, written from the spec text
    `floor(t/D)+1` with `D` the 15-second phase duration. -/
def phaseOfSpec (t : ℚ) : ℤ :=
  ⌊t / 15⌋ + 1

/-- `getPhaseConfig`. -/
def getPhaseConfig (phase : ℤ) : PhaseConfig :=
  let isAllUnstable : Bool := decide (phase ≥ 9)
  { gravityDrift := decide (phase ≥ 2) || isAllUnstable
    pipeOscillation := decide (phase ≥ 3) || isAllUnstable
    windForce := decide (phase ≥ 4) || isAllUnstable
    controlFlip := decide (phase ≥ 5) || isAllUnstable
    ghostPipes := decide (phase ≥ 6) || isAllUnstable
    speedDrift := decide (phase ≥ 7) || isAllUnstable
    visualGlitch := decide (phase ≥ 8) || isAllUnstable
    allUnstable := isAllUnstable }

/-- `calculateGravity` (patched version returning `{ gravity, changed }`). -/
def calculateGravity (phase : ℤ) (timeAlive : ℚ) (config : PhaseConfig)
    (modeConfig : ModeConfig) : GravityResult :=
  let baseGravity := PHYSICS.GRAVITY * modeConfig.gravityMultiplier
  if config.gravityDrift = false then
    { gravity := baseGravity, changed := false }
  else if phase = 2 ∨ phase = 3 then
    let cycleTime := PHASE_EFFECTS.GRAVITY_DRIFT_CYCLE_TIME
    let cyclePhase := Int.tmod ⌊timeAlive / cycleTime⌋ 2
    let prevCyclePhase := Int.tmod ⌊(timeAlive - 0.016) / cycleTime⌋ 2
    let changed := cyclePhase ≠ prevCyclePhase
    let multiplier := if cyclePhase = 0 then PHASE_EFFECTS.GRAVITY_LOW_MULTIPLIER
      else PHASE_EFFECTS.GRAVITY_HIGH_MULTIPLIER
    { gravity := baseGravity * multiplier, changed := changed }
  else if phase = 4 then
    { gravity := PHYSICS.FLOATY_GRAVITY * modeConfig.gravityMultiplier, changed := false }
  else
    let cycle := Int.tmod ⌊timeAlive / 5⌋ 3
    let prevCycle := Int.tmod ⌊(timeAlive - 0.016) / 5⌋ 3
    let changed := cycle ≠ prevCycle
    let gravity := if cycle = 0 then PHYSICS.GRAVITY
      else if cycle = 1 then PHYSICS.HEAVY_GRAVITY
      else if cycle = 2 then PHYSICS.FLOATY_GRAVITY
      else PHYSICS.GRAVITY
    { gravity := gravity * modeConfig.gravityMultiplier, changed := changed }

/-- `calculateWindForce`. -/
def calculateWindForce (phase : ℤ) (timeAlive : ℚ) (config : PhaseConfig)
    (modeConfig : ModeConfig) : ℚ :=
  if config.windForce = false then 0
  else
    let gustCycle := Int.tmod ⌊timeAlive * 1000 / WIND.GUST_INTERVAL⌋ 4
    let intensityMultiplier : ℚ := if phase = 4 then 0.5 else 1
    let modeMultiplier := modeConfig.windForceMultiplier
    if gustCycle = 0 then WIND.UPWARD * intensityMultiplier * modeMultiplier
    else if gustCycle = 1 then 0
    else if gustCycle = 2 then WIND.DOWNWARD * intensityMultiplier * modeMultiplier
    else 0

/-- `calculatePipeSpeed`. -/
def calculatePipeSpeed (phase : ℤ) (timeAlive : ℚ) (config : PhaseConfig)
    (modeConfig : ModeConfig) : ℚ :=
  let baseSpeed := PIPES.SPEED * modeConfig.pipeSpeedMultiplier
  if config.speedDrift = false then baseSpeed
  else
    let cycle := jsMod timeAlive 10
    let maxDrift := baseSpeed * EFFECTS.SPEED_DRIFT_MAX
    if cycle < 4 then baseSpeed + cycle / 4 * maxDrift
    else if cycle < 5 then baseSpeed - maxDrift
    else baseSpeed - maxDrift + (cycle - 5) / 5 * maxDrift * 2

/-- `getControlFlipDuration`. -/
def getControlFlipDuration (modeConfig : ModeConfig) : ℚ :=
  EFFECTS.CONTROL_FLIP_DURATION * modeConfig.controlFlipDurationMultiplier

/-- `calculateVisualEffects`; `Math.sin` is the injected `sin` oracle. -/
def calculateVisualEffects (sin : ℚ → ℚ) (_phase : ℤ) (timeAlive : ℚ)
    (config : PhaseConfig) : ℚ × ℚ :=
  if config.visualGlitch = false then (0, 0)
  else (sin (timeAlive * 2) * 2, jsMod (timeAlive * 10) 360)

/-- `getPhaseTitle` (string version from PhaseManager.ts). -/
def getPhaseTitle (phase : ℤ) : String :=
  if phase = 1 then "PHASE 1 — CLASSIC"
  else if phase = 2 then "PHASE 2 — GRAVITY DRIFT"
  else if phase = 3 then "PHASE 3 — OSCILLATION"
  else if phase = 4 then "PHASE 4 — WIND FORCE"
  else if phase = 5 then "PHASE 5 — CONTROL CHAOS"
  else if phase = 6 then "PHASE 6 — GHOST PIPES"
  else if phase = 7 then "PHASE 7 — SPEED DRIFT"
  else if phase = 8 then "PHASE 8 — VISUAL GLITCH"
  else if phase = 9 then "PHASE 9 — TOTAL CHAOS"
  else "PHASE " ++ toString phase ++ " — BEYOND"

/-! ### Bird.ts -/

/-- `createBird`. -/
def createBird : Bird :=
  { x := BIRD_CONST.X_POSITION
    y := BIRD_CONST.INITIAL_Y
    velocityY := 0
    velocityX := 0
    width := BIRD_CONST.WIDTH
    height := BIRD_CONST.HEIGHT }

/-- `updateBird` with horizontal wind and control-flip handling. -/
def updateBird (bird : Bird) (gravity horizontalWind : ℚ)
    (isControlFlipped isHoldingInput : Bool) (flipForceMultiplier : ℚ) : Bird :=
  let newVelocityY0 :=
    if isControlFlipped then
      let v :=
        if isHoldingInput then bird.velocityY + gravity * 2.5 * flipForceMultiplier
        else bird.velocityY - gravity * 1.2 * flipForceMultiplier
      if flipForceMultiplier < 1 then v + gravity * (1 - flipForceMultiplier) * 0.5
      else v
    else bird.velocityY + gravity
  let newVelocityY1 := max PHYSICS.MIN_VELOCITY (min PHYSICS.MAX_VELOCITY newVelocityY0)
  let newY0 := bird.y + newVelocityY1
  let vertical := if newY0 < 0 then ((0 : ℚ), (0 : ℚ)) else (newY0, newVelocityY1)
  let newVelocityX0 := bird.velocityX + horizontalWind
  let newVelocityX1 := newVelocityX0 * 0.95
  let newVelocityX := max (-3) (min 3 newVelocityX1)
  let newX0 := bird.x + newVelocityX
  let newX := max 20 (min (CANVAS.WIDTH - bird.width - 20) newX0)
  { bird with x := newX, y := vertical.1, velocityY := vertical.2, velocityX := newVelocityX }

/-- `flapBird`. -/
def flapBird (bird : Bird) (isControlFlipped : Bool) : Bird :=
  if isControlFlipped then bird
  else { bird with velocityY := PHYSICS.FLAP_FORCE }

/-! ### Pipe.ts -/

/-- `createPipe`; `Math.random()` draws and `Date.now()` are oracle inputs. -/
def createPipe (phase : ℤ) (isGhost hasDelayedCollision : Bool)
    (gapMultiplier : ℚ) (modeConfig : ModeConfig)
    (randGapY randSeed now : ℚ) : Pipe :=
  let gapReduction := (max 0 (phase - 2) : ℤ) * PIPES.GAP_SHRINK_PER_PHASE
  let gapSize0 := max PIPES.MIN_GAP_SIZE (PIPES.GAP_SIZE - gapReduction)
  let gapSize := gapSize0 * modeConfig.pipeGapMultiplier * gapMultiplier
  let minY := PIPES.MIN_GAP_Y + gapSize / 2
  let maxY := CANVAS.HEIGHT - 50 - PIPES.MIN_GAP_Y - gapSize / 2
  let gapY := minY + randGapY * (maxY - minY)
  { x := CANVAS.WIDTH
    gapY := gapY
    gapSize := gapSize
    isGhost := isGhost
    oscillationOffset := 0
    oscillationSeed := randSeed * MathPI * 2
    passed := false
    scored := false
    spawnTime := now
    hasDelayedCollision := hasDelayedCollision }

/-- `updatePipe` (patched 55px-amplitude version). -/
def updatePipe (sin : ℚ → ℚ) (pipe : Pipe) (speed : ℚ) (phase : ℤ)
    (enableOscillation : Bool) (gameTime : ℚ) (modeConfig : ModeConfig) : Pipe :=
  let newX := pipe.x - speed
  let oscillationOffset :=
    if enableOscillation then
      let baseAmplitude := PHASE_EFFECTS.OSCILLATION_AMPLITUDE
      let modeMultiplier := modeConfig.oscillationAmplitudeMultiplier
      let phaseMultiplier : ℚ := if phase ≥ 9 then 1.4 else if phase ≥ 7 then 1.2 else 1
      let oscillationSpeed :=
        PHASE_EFFECTS.OSCILLATION_SPEED * (1 + (min (phase - 3) 4 : ℤ) * 0.1)
      sin (gameTime * oscillationSpeed + pipe.oscillationSeed)
        * baseAmplitude * modeMultiplier * phaseMultiplier
    else 0
  { pipe with x := newX, oscillationOffset := oscillationOffset }

/-- `isPipeOffScreen`. -/
def isPipeOffScreen (pipe : Pipe) : Bool :=
  decide (pipe.x + PIPES.WIDTH < 0)

/-- `checkAndScorePipe`. -/
def checkAndScorePipe (pipe : Pipe) (birdX : ℚ) : ScoreResult :=
  let pipeCenterX := pipe.x + PIPES.WIDTH / 2
  if pipe.scored = false ∧ birdX > pipeCenterX then
    { scored := true, pipe := { pipe with scored := true, passed := true } }
  else
    { scored := false, pipe := pipe }

/-- `shouldBeGhostPipe`; the `Math.random()` draw is the `rand` input. -/
def shouldBeGhostPipe (phase : ℤ) (rand : ℚ) : Bool :=
  if phase < 6 then false
  else
    let probability := EFFECTS.GHOST_PIPE_BASE_PROBABILITY +
      (phase - 6 : ℤ) * EFFECTS.GHOST_PIPE_PHASE_MULTIPLIER
    decide (rand < probability)

/-- `shouldHaveDelayedCollision`. -/
def shouldHaveDelayedCollision (phase : ℤ) (rand : ℚ) : Bool :=
  if phase < 8 then false else decide (rand < 0.25)

/-- `isDelayedCollisionActive`; `Date.now()` is the `now` input. -/
def isDelayedCollisionActive (now : ℚ) (pipe : Pipe) (forgivenessMs : ℚ) : Bool :=
  if pipe.hasDelayedCollision = false then true
  else decide (now - pipe.spawnTime > EFFECTS.DELAYED_COLLISION_MS + forgivenessMs)

/-! ### Collision.ts -/

/-- `checkPipeCollision`. -/
def checkPipeCollision (now : ℚ) (bird : Bird) (pipe : Pipe)
    (forgivenessMs : ℚ) : Bool :=
  if pipe.isGhost then false
  else if isDelayedCollisionActive now pipe forgivenessMs = false then false
  else
    let pipeLeft := pipe.x
    let pipeRight := pipe.x + PIPES.WIDTH
    let effectiveGapY := pipe.gapY + pipe.oscillationOffset
    let gapTop := effectiveGapY - pipe.gapSize / 2
    let gapBottom := effectiveGapY + pipe.gapSize / 2
    let birdLeft := bird.x
    let birdRight := bird.x + bird.width
    let birdTop := bird.y
    let birdBottom := bird.y + bird.height
    let horizontalOverlap := decide (birdRight > pipeLeft) && decide (birdLeft < pipeRight)
    if horizontalOverlap = false then false
    else
      let withinGap := decide (birdTop > gapTop) && decide (birdBottom < gapBottom)
      !withinGap

/-- `checkGroundCollision`. -/
def checkGroundCollision (bird : Bird) : Bool :=
  let groundY := CANVAS.HEIGHT - 50
  decide (bird.y + bird.height ≥ groundY)

/-- `checkCeilingCollision`. -/
def checkCeilingCollision (bird : Bird) : Bool :=
  decide (bird.y ≤ 0)

/-- `checkAllPipeCollisions`. -/
def checkAllPipeCollisions (now : ℚ) (bird : Bird) (pipes : List Pipe)
    (forgivenessMs : ℚ) : Bool :=
  pipes.any fun pipe => checkPipeCollision now bird pipe forgivenessMs

/-- `checkAllCollisions`. -/
def checkAllCollisions (now : ℚ) (bird : Bird) (pipes : List Pipe)
    (forgivenessMs : ℚ) : CollisionResult :=
  if checkGroundCollision bird then { hit := true, type := CollisionType.ground }
  else if checkAllPipeCollisions now bird pipes forgivenessMs then
    { hit := true, type := CollisionType.pipe }
  else { hit := false, type := CollisionType.none }

/-! ### Game.tsx state and loop -/

/-- The mutable `GameState` held by `stateRef` in the patched Game.tsx. -/
structure GameState where
  bird : Bird
  pipes : List Pipe
  score : ℕ
  timeAlive : ℚ
  phase : ℤ
  isPlaying : Bool
  isGameOver : Bool
  hasStarted : Bool
  currentGravity : ℚ
  currentWindForce : ℚ
  currentPipeSpeed : ℚ
  isControlFlipped : Bool
  controlFlipEndTime : ℚ
  controlFlipWarning : Bool
  controlFlipWarningEndTime : ℚ
  isHoldingInput : Bool
  gameMode : GameMode
  modeConfig : ModeConfig
  isSlowMotion : Bool
  slowMotionEndTime : ℚ
  timeScale : ℚ
  phaseChangeDisplay : String
  phaseChangeDisplayEndTime : ℚ
  isSystemOverload : Bool
  systemOverloadEndTime : ℚ
  cameraShake : ℚ × ℚ
  canvasRotation : ℚ
  hueShift : ℚ
  screenFlash : ℚ
  warningFlash : Bool
  gravityWobble : ℚ
  lastGravityChange : ℚ
  desaturation : ℚ
deriving DecidableEq

/-- The external primitives one frame of the loop reads: the `Math.sin`
    function, the `Math.random()` draws made this frame (one per call
    site), and the `Date.now()` clock. -/
structure JsEnv where
  sin : ℚ → ℚ
  now : ℚ
  randFlip : ℚ
  randGhost : ℚ
  randDelayed : ℚ
  randGapY : ℚ
  randSeed : ℚ

/-- The refs surrounding the loop: `stateRef`, `lastTimeRef`,
    `lastPipeSpawnRef`. -/
structure LoopRefs where
  state : GameState
  lastTime : ℚ
  lastPipeSpawn : ℚ

/-- `shouldTriggerControlFlip`; the `Math.random()` draw is `rand`. -/
def shouldTriggerControlFlip (state : GameState) (config : PhaseConfig)
    (rand : ℚ) : Bool :=
  if config.controlFlip = false then false
  else if state.isControlFlipped then false
  else if state.controlFlipWarning then false
  else
    let phaseTime := jsMod state.timeAlive PHASE.DURATION
    if state.phase = 5 ∧ phaseTime < 1 then true
    else if state.phase ≥ 5 ∧ rand < 0.0005 then true
    else false

/-- `createInitialState`. -/
def createInitialState (mode : GameMode) : GameState :=
  { bird := createBird
    pipes := []
    score := 0
    timeAlive := 0
    phase := 1
    isPlaying := false
    isGameOver := false
    hasStarted := false
    currentGravity := PHYSICS.GRAVITY
    currentWindForce := 0
    currentPipeSpeed := PIPES.SPEED
    isControlFlipped := false
    controlFlipEndTime := 0
    controlFlipWarning := false
    controlFlipWarningEndTime := 0
    isHoldingInput := false
    gameMode := mode
    modeConfig := getModeConfig mode
    isSlowMotion := false
    slowMotionEndTime := 0
    timeScale := 1
    phaseChangeDisplay := ""
    phaseChangeDisplayEndTime := 0
    isSystemOverload := false
    systemOverloadEndTime := 0
    cameraShake := (0, 0)
    canvasRotation := 0
    hueShift := 0
    screenFlash := 0
    warningFlash := false
    gravityWobble := 0
    lastGravityChange := 0
    desaturation := 0 }

/-- The state set by `handleStart` / `handleRestart`. -/
def startedState (mode : GameMode) : GameState :=
  { createInitialState mode with hasStarted := true, isPlaying := true }

/-- `spawnPipe` from Game.tsx (pushes a fresh pipe). -/
def spawnPipe (e : JsEnv) (state : GameState) : GameState :=
  let config := getPhaseConfig state.phase
  let isGhost := config.ghostPipes && shouldBeGhostPipe state.phase e.randGhost
  let hasDelayed := config.visualGlitch && shouldHaveDelayedCollision state.phase e.randDelayed
  let newPipe := createPipe state.phase isGhost hasDelayed 1 state.modeConfig
    e.randGapY e.randSeed e.now
  { state with pipes := state.pipes ++ [newPipe] }

/-- `jumpToPhase` from Game.tsx.  `perfNow` is `performance.now()`.  The
    display text embeds what the JS produces: `getPhaseTitle` returns a
    string, so `title.phase` / `title.effect` are `undefined` and the
    template renders the literal below. -/
def jumpToPhase (state : GameState) (phase : ℤ) (perfNow : ℚ) : GameState :=
  if state.hasStarted = false ∨ state.isGameOver then state
  else
    let targetTime := ((phase : ℚ) - 1) * 15 + 0.5
    let s1 := { state with timeAlive := targetTime, phase := phase }
    let title := getPhaseTitle phase
    if title ≠ "" then
      { s1 with
        phaseChangeDisplay := "undefined\nundefined"
        phaseChangeDisplayEndTime := perfNow + 2000
        screenFlash := 0.5
        isSlowMotion := true
        slowMotionEndTime := perfNow + SLOW_MOTION.PHASE_CHANGE_DURATION
        timeScale := SLOW_MOTION.TIME_SCALE }
    else s1

/-- The slow-motion block at the top of `gameLoop`: its effect on the
    state. -/
def applySlowMotionState (state : GameState) (timestamp : ℚ) : GameState :=
  if state.isSlowMotion then
    if timestamp > state.slowMotionEndTime then
      { state with isSlowMotion := false, timeScale := 1 }
    else state
  else state

/-- The slow-motion block at the top of `gameLoop`: its effect on
    `deltaTime`. -/
def applySlowMotionDelta (state : GameState) (timestamp deltaTime : ℚ) : ℚ :=
  if state.isSlowMotion then
    if timestamp > state.slowMotionEndTime then deltaTime
    else deltaTime * state.timeScale
  else deltaTime

/-- The system-overload freeze branch of `gameLoop`. -/
def overloadFreezeStep (e : JsEnv) (state : GameState) (timestamp : ℚ) : GameState :=
  if timestamp > state.systemOverloadEndTime then
    { state with isSystemOverload := false, desaturation := 0 }
  else
    let flickerPhase := e.sin (timestamp * 0.02) * 0.5 + 0.5
    { state with desaturation := 0.7 + flickerPhase * 0.3 }

/-- The phase-transition block of `gameLoop` (phase change announcement
    and System-Overload trigger at phases 3/6/9). -/
def phaseTransitionStep (state : GameState) (timestamp : ℚ) : GameState :=
  let newPhase := getCurrentPhase state.timeAlive
  if newPhase ≠ state.phase then
    let s1 := { state with phase := newPhase }
    let title := getPhaseTitle newPhase
    if title ≠ "" then
      let s2 := { s1 with
        phaseChangeDisplay := "undefined\nundefined"
        phaseChangeDisplayEndTime := timestamp + 2000
        screenFlash := 0.5
        isSlowMotion := true
        slowMotionEndTime := timestamp + SLOW_MOTION.PHASE_CHANGE_DURATION
        timeScale := SLOW_MOTION.TIME_SCALE }
      if newPhase ≥ 3 ∧ newPhase ≤ 9 ∧ Int.tmod newPhase 3 = 0 then
        { s2 with
          isSystemOverload := true
          systemOverloadEndTime := timestamp + 700
          desaturation := 1 }
      else s2
    else s1
  else state

/-- The phase-display clearing line of `gameLoop`. -/
def clearPhaseDisplay (state : GameState) (timestamp : ℚ) : GameState :=
  if state.phaseChangeDisplay ≠ "" ∧ timestamp > state.phaseChangeDisplayEndTime then
    { state with phaseChangeDisplay := "" }
  else state

/-- The gravity-wobble bookkeeping of `gameLoop`. -/
def wobbleStep (state : GameState) (changed : Bool) (timestamp : ℚ) : GameState :=
  let s1 :=
    if changed then
      { state with
        gravityWobble := PHASE_EFFECTS.GRAVITY_WOBBLE_INTENSITY
        lastGravityChange := timestamp }
    else state
  if s1.gravityWobble > 0 then
    let gw := s1.gravityWobble * 0.9
    { s1 with gravityWobble := if gw < 0.1 then 0 else gw }
  else s1

/-- The control-flip warning/activation/expiry block of `gameLoop`. -/
def controlFlipStep (state : GameState) (config : PhaseConfig)
    (rand timestamp : ℚ) : GameState :=
  let s1 :=
    if shouldTriggerControlFlip state config rand then
      { state with
        controlFlipWarning := true
        controlFlipWarningEndTime := timestamp + 2000 }
    else state
  let s2 :=
    if s1.controlFlipWarning ∧ timestamp > s1.controlFlipWarningEndTime then
      { s1 with
        controlFlipWarning := false
        isControlFlipped := true
        controlFlipEndTime := timestamp + getControlFlipDuration s1.modeConfig }
    else s1
  if s2.isControlFlipped ∧ timestamp > s2.controlFlipEndTime then
    { s2 with isControlFlipped := false }
  else s2

/-- The pipe-spawning block of `gameLoop` (returns the state and the new
    `lastPipeSpawnRef`). -/
def spawnStep (e : JsEnv) (state : GameState) (timestamp lastPipeSpawn : ℚ) :
    GameState × ℚ :=
  let spawnInterval := PIPES.SPAWN_INTERVAL * state.modeConfig.pipeSpawnMultiplier
  if timestamp - lastPipeSpawn > spawnInterval then (spawnPipe e state, timestamp)
  else (state, lastPipeSpawn)

/-- The pipe-update / scoring / retirement block of `gameLoop`. -/
def pipesScoreStep (e : JsEnv) (state : GameState) (pipeSpeed : ℚ)
    (config : PhaseConfig) : GameState :=
  let results := state.pipes.map fun pipe =>
    let updatedPipe := updatePipe e.sin pipe pipeSpeed state.phase
      config.pipeOscillation state.timeAlive state.modeConfig
    checkAndScorePipe updatedPipe state.bird.x
  let scoreIncrement := (results.filter fun r => r.scored).length
  let pipes2 := (results.map fun r => r.pipe).filter fun p => !isPipeOffScreen p
  let s1 := { state with pipes := pipes2 }
  if scoreIncrement > 0 then { s1 with score := s1.score + scoreIncrement } else s1

/-- The collision block of `gameLoop`. -/
def collisionStep (e : JsEnv) (state : GameState) : GameState :=
  let collision := checkAllCollisions e.now state.bird state.pipes
    state.modeConfig.collisionForgivenessMs
  if collision.hit then { state with isGameOver := true, isPlaying := false }
  else state

/-- The visual-effects block of `gameLoop`. -/
def visualStep (e : JsEnv) (state : GameState) (config : PhaseConfig) : GameState :=
  if config.visualGlitch then
    let eff := calculateVisualEffects e.sin state.phase state.timeAlive config
    { state with canvasRotation := eff.1, hueShift := eff.2 }
  else { state with canvasRotation := 0, hueShift := 0 }

/-- The camera-shake / screen-flash decay lines of `gameLoop`. -/
def decayStep (state : GameState) : GameState :=
  let s1 := { state with cameraShake := (state.cameraShake.1 * 0.9, state.cameraShake.2 * 0.9) }
  let sf := s1.screenFlash * 0.95
  { s1 with screenFlash := if sf < 0.01 then 0 else sf }

/-- The main (non-frozen) update body of `gameLoop`. -/
def mainUpdate (e : JsEnv) (s0 : GameState) (deltaTime timestamp lastPipeSpawn : ℚ) :
    LoopRefs :=
  let s1 := { s0 with timeAlive := s0.timeAlive + deltaTime }
  let s2 := phaseTransitionStep s1 timestamp
  let s3 := clearPhaseDisplay s2 timestamp
  let config := getPhaseConfig s3.phase
  let gravityResult := calculateGravity s3.phase s3.timeAlive config s3.modeConfig
  let windForce := calculateWindForce s3.phase s3.timeAlive config s3.modeConfig
  let pipeSpeed := calculatePipeSpeed s3.phase s3.timeAlive config s3.modeConfig
  let s4 := wobbleStep s3 gravityResult.changed timestamp
  let s5 := { s4 with
    currentGravity := gravityResult.gravity
    currentWindForce := windForce
    currentPipeSpeed := pipeSpeed }
  let s6 := controlFlipStep s5 config e.randFlip timestamp
  let s7 := { s6 with
    warningFlash := s6.controlFlipWarning && decide (Int.tmod ⌊timestamp / 200⌋ 2 = 0) }
  let s8 := { s7 with
    bird := updateBird s7.bird gravityResult.gravity windForce
      s7.isControlFlipped s7.isHoldingInput 1 }
  let sp := spawnStep e s8 timestamp lastPipeSpawn
  let s9 := pipesScoreStep e sp.1 pipeSpeed config
  let s10 := collisionStep e s9
  let s11 := visualStep e s10 config
  let s12 := decayStep s11
  { state := s12, lastTime := timestamp, lastPipeSpawn := sp.2 }

/-- One frame of `gameLoop` (the state-updating part; rendering and audio
    are external collaborators). -/
def gameLoopStep (e : JsEnv) (r : LoopRefs) (timestamp : ℚ) : LoopRefs :=
  let deltaTime0 : ℚ := if r.lastTime ≠ 0 then (timestamp - r.lastTime) / 1000 else 0
  let s := applySlowMotionState r.state timestamp
  let deltaTime := applySlowMotionDelta r.state timestamp deltaTime0
  if s.isPlaying && !s.isGameOver then
    if s.isSystemOverload then
      { state := overloadFreezeStep e s timestamp
        lastTime := timestamp
        lastPipeSpawn := r.lastPipeSpawn }
    else mainUpdate e s deltaTime timestamp r.lastPipeSpawn
  else
    { state := s, lastTime := timestamp, lastPipeSpawn := r.lastPipeSpawn }

/-- States of the loop refs reachable from page load by starting or
    restarting a game and by frames of `gameLoop`. -/
inductive Reachable : LoopRefs → Prop
  | boot (t0 : ℚ) : Reachable ⟨createInitialState GameMode.CHAOS, 0, t0⟩
  | start (mode : GameMode) (r : LoopRefs) (t0 : ℚ) :
      Reachable r → Reachable ⟨startedState mode, r.lastTime, t0⟩
  | step (e : JsEnv) (timestamp : ℚ) (r : LoopRefs) :
      Reachable r → Reachable (gameLoopStep e r timestamp)

/-! ### Helper lemmas -/

lemma jsMod_nonneg_lt (a b : ℚ) (ha : 0 ≤ a) (hb : 0 < b) :
    0 ≤ jsMod a b ∧ jsMod a b < b := by
  unfold jsMod jsTrunc
  have hq : ¬ a / b < 0 := not_lt.2 (div_nonneg ha hb.le)
  rw [if_neg hq]
  have h1 : (⌊a / b⌋ : ℚ) ≤ a / b := Int.floor_le _
  have h2 : a / b < ⌊a / b⌋ + 1 := Int.lt_floor_add_one _
  have h1' : (⌊a / b⌋ : ℚ) * b ≤ a := (le_div_iff₀ hb).mp h1
  have h2' : a < ((⌊a / b⌋ : ℚ) + 1) * b := (div_lt_iff₀ hb).mp h2
  constructor <;> nlinarith

lemma checkPipeCollision_ghost (now : ℚ) (b : Bird) (p : Pipe) (f : ℚ)
    (hg : p.isGhost = true) : checkPipeCollision now b p f = false := by
  unfold checkPipeCollision
  rw [hg]
  rfl

lemma checkAllPipeCollisions_filter_ghosts (now : ℚ) (b : Bird) (f : ℚ)
    (pipes : List Pipe) :
    checkAllPipeCollisions now b pipes f =
      checkAllPipeCollisions now b (pipes.filter fun q => !q.isGhost) f := by
  induction pipes with
  | nil => rfl
  | cons q t ih =>
    simp only [checkAllPipeCollisions, List.filter_cons] at ih ⊢
    by_cases hq : q.isGhost = true
    · have hcol := checkPipeCollision_ghost now b q f hq
      simp [hq, hcol, ih]
    · have hq' : q.isGhost = false := Bool.not_eq_true q.isGhost |>.mp hq
      simp [hq', ih]

/-! ### Concrete example inputs used by the witnesses -/

/-- A ghost pipe sitting right on the bird's start position. -/
def ghostPipeEx : Pipe :=
  { x := 80, gapY := 0, gapSize := 0, isGhost := true, oscillationOffset := 0,
    oscillationSeed := 0, passed := false, scored := false, spawnTime := 0,
    hasDelayedCollision := false }

/-- A delayed-collision pipe sitting right on the bird's start position. -/
def delayedPipeEx : Pipe :=
  { x := 80, gapY := 0, gapSize := 0, isGhost := false, oscillationOffset := 0,
    oscillationSeed := 0, passed := false, scored := false, spawnTime := 0,
    hasDelayedCollision := true }

/-- An already-scored pipe. -/
def scoredPipeEx : Pipe :=
  { x := 0, gapY := 300, gapSize := 200, isGhost := false, oscillationOffset := 0,
    oscillationSeed := 0, passed := true, scored := true, spawnTime := 0,
    hasDelayedCollision := false }

/-! ### Claim theorems -/

/-- Claim C1: for every survival time `t ≥ 0`, `getCurrentPhase t` equals
    `⌊t / PHASE.DURATION⌋ + 1` (the spec's `floor(t/D)+1`), and the phase is
    non-decreasing in survival time. -/
theorem getCurrentPhase_floor_and_monotone (t t' : ℚ) (h0 : 0 ≤ t) (hle : t ≤ t') :
    getCurrentPhase t = phaseOfSpec t ∧ getCurrentPhase t ≤ getCurrentPhase t' := by
  constructor
  · rfl
  · unfold getCurrentPhase PHASE.DURATION
    have hd : t / 15 ≤ t' / (15 : ℚ) := by linarith
    have := Int.floor_le_floor hd
    omega

/-- Witness for C1 at `t = 3`, `t' = 20`. -/
theorem getCurrentPhase_floor_and_monotone_witness :
    getCurrentPhase 3 = phaseOfSpec 3 ∧ getCurrentPhase 3 ≤ getCurrentPhase 20 :=
  getCurrentPhase_floor_and_monotone 3 20 (by norm_num) (by norm_num)

/-- Claim C3: a ghost pipe never collides, for any bird geometry, and hence
    ghost pipes contribute nothing to `checkAllPipeCollisions` or to
    `checkAllCollisions`: both are unchanged by dropping all ghost pipes. -/
theorem ghost_pipe_never_collides (now : ℚ) (b : Bird) (p : Pipe) (f : ℚ)
    (hg : p.isGhost = true) :
    checkPipeCollision now b p f = false ∧
    (∀ pipes : List Pipe, checkAllPipeCollisions now b pipes f =
      checkAllPipeCollisions now b (pipes.filter fun q => !q.isGhost) f) ∧
    (∀ pipes : List Pipe, checkAllCollisions now b pipes f =
      checkAllCollisions now b (pipes.filter fun q => !q.isGhost) f) := by
  refine ⟨checkPipeCollision_ghost now b p f hg,
    checkAllPipeCollisions_filter_ghosts now b f, fun pipes => ?_⟩
  unfold checkAllCollisions
  rw [checkAllPipeCollisions_filter_ghosts now b f pipes]

/-- Witness for C3: a concrete ghost pipe sitting right on the bird. -/
theorem ghost_pipe_never_collides_witness :
    checkPipeCollision 0 createBird ghostPipeEx 0 = false ∧
    (∀ pipes : List Pipe, checkAllPipeCollisions 0 createBird pipes 0 =
      checkAllPipeCollisions 0 createBird (pipes.filter fun q => !q.isGhost) 0) ∧
    (∀ pipes : List Pipe, checkAllCollisions 0 createBird pipes 0 =
      checkAllCollisions 0 createBird (pipes.filter fun q => !q.isGhost) 0) :=
  ghost_pipe_never_collides 0 createBird ghostPipeEx 0 rfl

/-- Claim C4: a delayed-collision pipe is collision-inert while
    `now - spawnTime ≤ DELAYED_COLLISION_MS + forgivenessMs`, and afterwards
    collides exactly like the same pipe without the delayed-collision flag. -/
theorem delayed_collision_window (now : ℚ) (b : Bird) (p : Pipe) (f : ℚ)
    (hd : p.hasDelayedCollision = true) :
    (now - p.spawnTime ≤ EFFECTS.DELAYED_COLLISION_MS + f →
      checkPipeCollision now b p f = false) ∧
    (now - p.spawnTime > EFFECTS.DELAYED_COLLISION_MS + f →
      checkPipeCollision now b p f =
        checkPipeCollision now b { p with hasDelayedCollision := false } f) := by
  constructor
  · intro h
    unfold checkPipeCollision
    by_cases hg : p.isGhost = true
    · rw [hg]
      rfl
    · have hg' : p.isGhost = false := Bool.not_eq_true p.isGhost |>.mp hg
      have hact : isDelayedCollisionActive now p f = false := by
        unfold isDelayedCollisionActive
        rw [hd]
        simp [not_lt.2 h]
      simp [hg', hact]
  · intro h
    by_cases hg : p.isGhost = true
    · have hg2 : ({ p with hasDelayedCollision := false } : Pipe).isGhost = true := hg
      rw [checkPipeCollision_ghost now b p f hg,
        checkPipeCollision_ghost now b { p with hasDelayedCollision := false } f hg2]
    · have hg' : p.isGhost = false := Bool.not_eq_true p.isGhost |>.mp hg
      unfold checkPipeCollision
      simp [hg', isDelayedCollisionActive, hd, h]

/-- Witness for C4: a concrete delayed-collision pipe overlapping the bird,
    checked inside and after the grace window. -/
theorem delayed_collision_window_witness :
    ((50 : ℚ) - delayedPipeEx.spawnTime ≤ EFFECTS.DELAYED_COLLISION_MS + 0 →
      checkPipeCollision 50 createBird delayedPipeEx 0 = false) ∧
    ((50 : ℚ) - delayedPipeEx.spawnTime > EFFECTS.DELAYED_COLLISION_MS + 0 →
      checkPipeCollision 50 createBird delayedPipeEx 0 =
        checkPipeCollision 50 createBird
          { delayedPipeEx with hasDelayedCollision := false } 0) :=
  delayed_collision_window 50 createBird delayedPipeEx 0 rfl

/-- Claim C5: with inverted controls `flapBird` is a no-op; in normal mode it
    sets `velocityY` to the fixed negative impulse `PHYSICS.FLAP_FORCE` and
    changes nothing else. -/
theorem flapBird_flip_noop_normal_impulse (b : Bird) :
    flapBird b true = b ∧
    flapBird b false = { b with velocityY := PHYSICS.FLAP_FORCE } ∧
    PHYSICS.FLAP_FORCE < 0 :=
  ⟨rfl, rfl, by norm_num [PHYSICS.FLAP_FORCE]⟩

/-- Claim C6: `checkAndScorePipe` reports a score exactly on the first tick
    where the bird's x has passed the pipe's center while `scored` is still
    false; on an already-scored pipe it is the identity reporting no score,
    and the `scored` flag never goes back from true to false. -/
theorem checkAndScorePipe_scores_once (p : Pipe) (x : ℚ) :
    ((checkAndScorePipe p x).scored = true ↔
      p.scored = false ∧ x > p.x + PIPES.WIDTH / 2) ∧
    (p.scored = true → checkAndScorePipe p x = { scored := false, pipe := p }) ∧
    ((checkAndScorePipe p x).pipe.scored = true ↔
      p.scored = true ∨ x > p.x + PIPES.WIDTH / 2) := by
  unfold checkAndScorePipe
  by_cases hs : p.scored = true <;> by_cases hx : x > p.x + PIPES.WIDTH / 2 <;>
    simp [hs, hx]

/-- Witness for C6 on an already-scored pipe. -/
theorem checkAndScorePipe_scores_once_witness :
    ((checkAndScorePipe scoredPipeEx 100).scored = true ↔
      scoredPipeEx.scored = false ∧ (100 : ℚ) > scoredPipeEx.x + PIPES.WIDTH / 2) ∧
    (scoredPipeEx.scored = true →
      checkAndScorePipe scoredPipeEx 100 = { scored := false, pipe := scoredPipeEx }) ∧
    ((checkAndScorePipe scoredPipeEx 100).pipe.scored = true ↔
      scoredPipeEx.scored = true ∨ (100 : ℚ) > scoredPipeEx.x + PIPES.WIDTH / 2) :=
  checkAndScorePipe_scores_once scoredPipeEx 100

/-- Claim C7: once the speed-drift flag is active, `calculatePipeSpeed`
    deviates from the mode-scaled base speed by at most 15% of that base in
    either direction, at every point of the 10-second cycle. -/
theorem calculatePipeSpeed_drift_bounded (phase : ℤ) (t : ℚ) (config : PhaseConfig)
    (mc : ModeConfig) (ht : 0 ≤ t) (hm : 0 ≤ mc.pipeSpeedMultiplier)
    (hdrift : config.speedDrift = true) :
    |calculatePipeSpeed phase t config mc - PIPES.SPEED * mc.pipeSpeedMultiplier| ≤
      EFFECTS.SPEED_DRIFT_MAX * (PIPES.SPEED * mc.pipeSpeedMultiplier) := by
  obtain ⟨hc0, hc1⟩ := jsMod_nonneg_lt t 10 ht (by norm_num)
  set m := mc.pipeSpeedMultiplier with hmdef
  set c := jsMod t 10 with hcdef
  unfold calculatePipeSpeed
  rw [hdrift]
  simp only [Bool.true_eq_false, if_false, ← hcdef, ← hmdef]
  unfold PIPES.SPEED EFFECTS.SPEED_DRIFT_MAX
  rw [abs_le]
  split_ifs with h1 h2
  · constructor <;> nlinarith [mul_nonneg hc0 hm, mul_nonneg (by linarith : (0:ℚ) ≤ 4 - c) hm]
  · constructor <;> nlinarith
  · constructor <;>
      nlinarith [mul_nonneg (by linarith : (0:ℚ) ≤ c - 5) hm,
        mul_nonneg (by linarith : (0:ℚ) ≤ 10 - c) hm]

/-- Witness for C7 in phase 7 of CHAOS mode at `t = 20`. -/
theorem calculatePipeSpeed_drift_bounded_witness :
    |calculatePipeSpeed 7 20 (getPhaseConfig 7) CHAOS_MODE_CONFIG -
      PIPES.SPEED * CHAOS_MODE_CONFIG.pipeSpeedMultiplier| ≤
      EFFECTS.SPEED_DRIFT_MAX * (PIPES.SPEED * CHAOS_MODE_CONFIG.pipeSpeedMultiplier) :=
  calculatePipeSpeed_drift_bounded 7 20 (getPhaseConfig 7) CHAOS_MODE_CONFIG
    (by norm_num) (by norm_num [CHAOS_MODE_CONFIG]) (by decide)

/-- Claim C10: the wind argument of `updateBird` never influences the
    vertical outputs: `y` and `velocityY` are identical for any two wind
    forces, for every bird, gravity and control state. -/
theorem updateBird_wind_is_horizontal (b : Bird) (g w1 w2 : ℚ)
    (flip hold : Bool) (m : ℚ) :
    (updateBird b g w1 flip hold m).y = (updateBird b g w2 flip hold m).y ∧
    (updateBird b g w1 flip hold m).velocityY =
      (updateBird b g w2 flip hold m).velocityY :=
  ⟨rfl, rfl⟩

/-- Counterexample to C8 as stated: on a started, non-game-over state,
    `jumpToPhase` with the non-positive phase 0 does not reject the call and
    does not leave the state unchanged — it silently sets survival time to
    `-14.5` and phase to `0` (and the code has no `InvalidArgument` outcome
    at all). -/
theorem jumpToPhase_nonpositive_not_rejected :
    jumpToPhase (startedState GameMode.CHAOS) 0 1000 ≠ startedState GameMode.CHAOS ∧
    (jumpToPhase (startedState GameMode.CHAOS) 0 1000).timeAlive = -29 / 2 ∧
    (jumpToPhase (startedState GameMode.CHAOS) 0 1000).phase = 0 := by
  have hc : ¬((startedState GameMode.CHAOS).hasStarted = false ∨
      (startedState GameMode.CHAOS).isGameOver = true) := by decide
  have hti : getPhaseTitle 0 ≠ "" := by decide
  have h1 : (jumpToPhase (startedState GameMode.CHAOS) 0 1000).timeAlive = -29 / 2 := by
    simp only [jumpToPhase, if_neg hc, if_pos hti]
    norm_num
  refine ⟨?_, h1, ?_⟩
  · intro hcontra
    rw [hcontra] at h1
    norm_num [startedState, createInitialState] at h1
  · simp only [jumpToPhase, if_neg hc, if_pos hti]

/-- Claim C8 (amended): `jumpToPhase` performs no validation of the phase
    argument.  For every started, non-game-over state and every non-positive
    phase `p ≤ 0` it silently sets survival time to `(p-1)·15 + 0.5` — a
    negative value — and sets the phase to `p`; no `InvalidArgument` outcome
    exists (the only guard returns the state unchanged when the game has not
    started or is already over). -/
theorem jumpToPhase_nonpositive_silently_sets (s : GameState) (p : ℤ) (ts : ℚ)
    (hs : s.hasStarted = true) (hg : s.isGameOver = false) (hp : p ≤ 0) :
    (jumpToPhase s p ts).timeAlive = ((p : ℚ) - 1) * 15 + 0.5 ∧
    (jumpToPhase s p ts).phase = p ∧
    (jumpToPhase s p ts).timeAlive < 0 := by
  have hcond : ¬(s.hasStarted = false ∨ s.isGameOver = true) := by
    simp [hs, hg]
  have hpq : (p : ℚ) ≤ 0 := by exact_mod_cast hp
  have hneg : ((p : ℚ) - 1) * 15 + 0.5 < 0 := by nlinarith
  simp only [jumpToPhase, if_neg hcond]
  split_ifs with ht <;> exact ⟨rfl, rfl, hneg⟩

/-- Witness for the amended C8 at phase 0 on a freshly started CHAOS game. -/
theorem jumpToPhase_nonpositive_silently_sets_witness :
    (jumpToPhase (startedState GameMode.CHAOS) 0 1000).timeAlive =
      (((0 : ℤ) : ℚ) - 1) * 15 + 0.5 ∧
    (jumpToPhase (startedState GameMode.CHAOS) 0 1000).phase = 0 ∧
    (jumpToPhase (startedState GameMode.CHAOS) 0 1000).timeAlive < 0 :=
  jumpToPhase_nonpositive_silently_sets (startedState GameMode.CHAOS) 0 1000
    rfl rfl (by norm_num)

/-! ### Frame-step bookkeeping lemmas for C2 and C9 -/

lemma applySlowMotionState_cases (s : GameState) (ts : ℚ) :
    applySlowMotionState s ts = s ∨
    applySlowMotionState s ts = { s with isSlowMotion := false, timeScale := 1 } := by
  unfold applySlowMotionState
  split_ifs
  · exact Or.inr rfl
  · exact Or.inl rfl
  · exact Or.inl rfl

lemma applySlowMotionState_fields (s : GameState) (ts : ℚ) :
    (applySlowMotionState s ts).isPlaying = s.isPlaying ∧
    (applySlowMotionState s ts).isGameOver = s.isGameOver ∧
    (applySlowMotionState s ts).isSystemOverload = s.isSystemOverload ∧
    (applySlowMotionState s ts).systemOverloadEndTime = s.systemOverloadEndTime ∧
    (applySlowMotionState s ts).timeAlive = s.timeAlive ∧
    (applySlowMotionState s ts).bird = s.bird ∧
    (applySlowMotionState s ts).pipes = s.pipes ∧
    (applySlowMotionState s ts).score = s.score ∧
    (applySlowMotionState s ts).controlFlipWarning = s.controlFlipWarning ∧
    (applySlowMotionState s ts).isControlFlipped = s.isControlFlipped := by
  rcases applySlowMotionState_cases s ts with h | h <;> rw [h] <;>
    exact ⟨rfl, rfl, rfl, rfl, rfl, rfl, rfl, rfl, rfl, rfl⟩

lemma overloadFreezeStep_fields (e : JsEnv) (s : GameState) (ts : ℚ) :
    (overloadFreezeStep e s ts).timeAlive = s.timeAlive ∧
    (overloadFreezeStep e s ts).bird = s.bird ∧
    (overloadFreezeStep e s ts).pipes = s.pipes ∧
    (overloadFreezeStep e s ts).score = s.score ∧
    (overloadFreezeStep e s ts).systemOverloadEndTime = s.systemOverloadEndTime ∧
    (overloadFreezeStep e s ts).controlFlipWarning = s.controlFlipWarning ∧
    (overloadFreezeStep e s ts).isControlFlipped = s.isControlFlipped := by
  unfold overloadFreezeStep
  split_ifs <;> exact ⟨rfl, rfl, rfl, rfl, rfl, rfl, rfl⟩

lemma gameLoopStep_overload_state (e : JsEnv) (r : LoopRefs) (ts : ℚ)
    (hp : r.state.isPlaying = true) (hg : r.state.isGameOver = false)
    (ho : r.state.isSystemOverload = true) :
    (gameLoopStep e r ts).state =
      overloadFreezeStep e (applySlowMotionState r.state ts) ts := by
  obtain ⟨f1, f2, f3, -⟩ := applySlowMotionState_fields r.state ts
  simp only [gameLoopStep, f1, f2, f3, hp, hg, ho]
  rfl

/-- A started CHAOS game currently inside a System-Overload freeze (deadline
    at timestamp 100). -/
def frozenStateEx : GameState :=
  { startedState GameMode.CHAOS with
    isSystemOverload := true
    systemOverloadEndTime := 100 }

/-- Loop refs holding the frozen example state. -/
def frozenRefsEx : LoopRefs := ⟨frozenStateEx, 0, 0⟩

/-- A trivial frame environment for witnesses. -/
def jsEnvEx : JsEnv :=
  { sin := fun _ => 0, now := 0, randFlip := 0, randGhost := 0,
    randDelayed := 0, randGapY := 0, randSeed := 0 }

/-- Claim C2: while the System-Overload freeze is active (flag set and the
    deadline not yet passed), one frame of `gameLoop` leaves survival time,
    the bird, the pipe list and the score unchanged, keeps the freeze flag
    and its deadline, and only updates the cosmetic desaturation flicker;
    and on any frame whose timestamp has passed the deadline the freeze flag
    is cleared, so the freeze ends. -/
theorem systemOverload_freeze_frame (e : JsEnv) (r : LoopRefs) (ts : ℚ)
    (hp : r.state.isPlaying = true) (hg : r.state.isGameOver = false)
    (ho : r.state.isSystemOverload = true)
    (ht : ¬ ts > r.state.systemOverloadEndTime) :
    (gameLoopStep e r ts).state.timeAlive = r.state.timeAlive ∧
    (gameLoopStep e r ts).state.bird = r.state.bird ∧
    (gameLoopStep e r ts).state.pipes = r.state.pipes ∧
    (gameLoopStep e r ts).state.score = r.state.score ∧
    (gameLoopStep e r ts).state.isSystemOverload = true ∧
    (gameLoopStep e r ts).state.systemOverloadEndTime = r.state.systemOverloadEndTime ∧
    (gameLoopStep e r ts).state.desaturation =
      0.7 + (e.sin (ts * 0.02) * 0.5 + 0.5) * 0.3 ∧
    (∀ ts2 : ℚ, ts2 > r.state.systemOverloadEndTime →
      (gameLoopStep e r ts2).state.isSystemOverload = false) := by
  obtain ⟨f1, f2, f3, f4, f5, f6, f7, f8, f9, f10⟩ := applySlowMotionState_fields r.state ts
  rw [gameLoopStep_overload_state e r ts hp hg ho]
  have hcond : ¬ ts > (applySlowMotionState r.state ts).systemOverloadEndTime := by
    rw [f4]
    exact ht
  unfold overloadFreezeStep
  rw [if_neg hcond]
  refine ⟨f5, f6, f7, f8, by rw [f3, ho], f4, rfl, ?_⟩
  intro ts2 hts2
  obtain ⟨g1, g2, g3, g4, -⟩ := applySlowMotionState_fields r.state ts2
  rw [gameLoopStep_overload_state e r ts2 hp hg ho]
  have hcond2 : ts2 > (applySlowMotionState r.state ts2).systemOverloadEndTime := by
    rw [g4]
    exact hts2
  unfold overloadFreezeStep
  rw [if_pos hcond2]

/-- Witness for C2: the frozen example state at timestamp 50, before the
    deadline 100. -/
theorem systemOverload_freeze_frame_witness :
    (gameLoopStep jsEnvEx frozenRefsEx 50).state.timeAlive = frozenRefsEx.state.timeAlive ∧
    (gameLoopStep jsEnvEx frozenRefsEx 50).state.bird = frozenRefsEx.state.bird ∧
    (gameLoopStep jsEnvEx frozenRefsEx 50).state.pipes = frozenRefsEx.state.pipes ∧
    (gameLoopStep jsEnvEx frozenRefsEx 50).state.score = frozenRefsEx.state.score ∧
    (gameLoopStep jsEnvEx frozenRefsEx 50).state.isSystemOverload = true ∧
    (gameLoopStep jsEnvEx frozenRefsEx 50).state.systemOverloadEndTime =
      frozenRefsEx.state.systemOverloadEndTime ∧
    (gameLoopStep jsEnvEx frozenRefsEx 50).state.desaturation =
      0.7 + (jsEnvEx.sin (50 * 0.02) * 0.5 + 0.5) * 0.3 ∧
    (∀ ts2 : ℚ, ts2 > frozenRefsEx.state.systemOverloadEndTime →
      (gameLoopStep jsEnvEx frozenRefsEx ts2).state.isSystemOverload = false) :=
  systemOverload_freeze_frame jsEnvEx frozenRefsEx 50 rfl rfl rfl (by norm_num [frozenRefsEx, frozenStateEx])

/-! ### Control-inversion machine lemmas for C9 -/

lemma shouldTriggerControlFlip_suppressed (s : GameState) (config : PhaseConfig)
    (rand : ℚ)
    (h : s.controlFlipWarning = true ∨ s.isControlFlipped = true) :
    shouldTriggerControlFlip s config rand = false := by
  unfold shouldTriggerControlFlip
  rcases h with h | h <;> simp [h]

lemma controlFlipStep_inv (s : GameState) (config : PhaseConfig) (rand ts : ℚ)
    (h : ¬(s.controlFlipWarning = true ∧ s.isControlFlipped = true)) :
    ¬((controlFlipStep s config rand ts).controlFlipWarning = true ∧
      (controlFlipStep s config rand ts).isControlFlipped = true) := by
  simp only [controlFlipStep]
  by_cases h1 : shouldTriggerControlFlip s config rand = true
  · have hfF : s.isControlFlipped = false := by
      cases hf : s.isControlFlipped
      · rfl
      · rw [shouldTriggerControlFlip_suppressed s config rand (Or.inr hf)] at h1
        cases h1
    rw [if_pos h1]
    split_ifs with h2 h3 h4 <;> intro hc <;> simp_all
  · rw [if_neg h1]
    split_ifs with h2 h3 h4 <;> intro hc <;> simp_all

lemma phaseTransitionStep_cf (s : GameState) (ts : ℚ) :
    (phaseTransitionStep s ts).controlFlipWarning = s.controlFlipWarning ∧
    (phaseTransitionStep s ts).isControlFlipped = s.isControlFlipped := by
  simp only [phaseTransitionStep]
  split_ifs <;> exact ⟨rfl, rfl⟩

lemma clearPhaseDisplay_cf (s : GameState) (ts : ℚ) :
    (clearPhaseDisplay s ts).controlFlipWarning = s.controlFlipWarning ∧
    (clearPhaseDisplay s ts).isControlFlipped = s.isControlFlipped := by
  simp only [clearPhaseDisplay]
  split_ifs <;> exact ⟨rfl, rfl⟩

lemma wobbleStep_cf (s : GameState) (changed : Bool) (ts : ℚ) :
    (wobbleStep s changed ts).controlFlipWarning = s.controlFlipWarning ∧
    (wobbleStep s changed ts).isControlFlipped = s.isControlFlipped := by
  simp only [wobbleStep]
  split_ifs <;> exact ⟨rfl, rfl⟩

lemma spawnStep_cf (e : JsEnv) (s : GameState) (ts lp : ℚ) :
    (spawnStep e s ts lp).1.controlFlipWarning = s.controlFlipWarning ∧
    (spawnStep e s ts lp).1.isControlFlipped = s.isControlFlipped := by
  simp only [spawnStep, spawnPipe]
  split_ifs <;> exact ⟨rfl, rfl⟩

lemma pipesScoreStep_cf (e : JsEnv) (s : GameState) (speed : ℚ)
    (config : PhaseConfig) :
    (pipesScoreStep e s speed config).controlFlipWarning = s.controlFlipWarning ∧
    (pipesScoreStep e s speed config).isControlFlipped = s.isControlFlipped := by
  simp only [pipesScoreStep]
  split_ifs <;> exact ⟨rfl, rfl⟩

lemma collisionStep_cf (e : JsEnv) (s : GameState) :
    (collisionStep e s).controlFlipWarning = s.controlFlipWarning ∧
    (collisionStep e s).isControlFlipped = s.isControlFlipped := by
  simp only [collisionStep]
  split_ifs <;> exact ⟨rfl, rfl⟩

lemma visualStep_cf (e : JsEnv) (s : GameState) (config : PhaseConfig) :
    (visualStep e s config).controlFlipWarning = s.controlFlipWarning ∧
    (visualStep e s config).isControlFlipped = s.isControlFlipped := by
  simp only [visualStep]
  split_ifs <;> exact ⟨rfl, rfl⟩

lemma decayStep_cf (s : GameState) :
    (decayStep s).controlFlipWarning = s.controlFlipWarning ∧
    (decayStep s).isControlFlipped = s.isControlFlipped :=
  ⟨rfl, rfl⟩

lemma mainUpdate_inv (e : JsEnv) (s0 : GameState) (d ts lp : ℚ)
    (h : ¬(s0.controlFlipWarning = true ∧ s0.isControlFlipped = true)) :
    ¬((mainUpdate e s0 d ts lp).state.controlFlipWarning = true ∧
      (mainUpdate e s0 d ts lp).state.isControlFlipped = true) := by
  simp only [mainUpdate]
  rw [(decayStep_cf _).1, (decayStep_cf _).2,
    (visualStep_cf _ _ _).1, (visualStep_cf _ _ _).2,
    (collisionStep_cf _ _).1, (collisionStep_cf _ _).2,
    (pipesScoreStep_cf _ _ _ _).1, (pipesScoreStep_cf _ _ _ _).2,
    (spawnStep_cf _ _ _ _).1, (spawnStep_cf _ _ _ _).2]
  apply controlFlipStep_inv
  rw [(wobbleStep_cf _ _ _).1, (wobbleStep_cf _ _ _).2,
    (clearPhaseDisplay_cf _ _).1, (clearPhaseDisplay_cf _ _).2,
    (phaseTransitionStep_cf _ _).1, (phaseTransitionStep_cf _ _).2]
  exact h

lemma gameLoopStep_inv (e : JsEnv) (r : LoopRefs) (ts : ℚ)
    (h : ¬(r.state.controlFlipWarning = true ∧ r.state.isControlFlipped = true)) :
    ¬((gameLoopStep e r ts).state.controlFlipWarning = true ∧
      (gameLoopStep e r ts).state.isControlFlipped = true) := by
  obtain ⟨-, -, -, -, -, -, -, -, f9, f10⟩ := applySlowMotionState_fields r.state ts
  have hasm : ¬((applySlowMotionState r.state ts).controlFlipWarning = true ∧
      (applySlowMotionState r.state ts).isControlFlipped = true) := by
    rw [f9, f10]
    exact h
  simp only [gameLoopStep]
  split_ifs <;>
    first
      | exact hasm
      | exact mainUpdate_inv e _ _ ts _ hasm
      | (obtain ⟨-, -, -, -, -, g6, g7⟩ :=
          overloadFreezeStep_fields e (applySlowMotionState r.state ts) ts
         intro hc
         rw [g6, g7] at hc
         exact hasm hc)

/-- Claim C9: in every loop state reachable from the initial state by
    starting a game and running frames of `gameLoop`, the control-inversion
    machine is in exactly one of Idle / Warning / Active:
    `controlFlipWarning` and `isControlFlipped` are never both true, and
    while either is true `shouldTriggerControlFlip` accepts no new trigger. -/
theorem control_inversion_exactly_one_state (r : LoopRefs) (h : Reachable r) :
    ¬(r.state.controlFlipWarning = true ∧ r.state.isControlFlipped = true) ∧
    (∀ (config : PhaseConfig) (rand : ℚ),
      r.state.controlFlipWarning = true ∨ r.state.isControlFlipped = true →
      shouldTriggerControlFlip r.state config rand = false) := by
  have hinv : ∀ r' : LoopRefs, Reachable r' →
      ¬(r'.state.controlFlipWarning = true ∧ r'.state.isControlFlipped = true) := by
    intro r' h'
    induction h' with
    | boot t0 => exact fun hc => Bool.false_ne_true hc.1
    | start mode r0 t0 hr ih => exact fun hc => Bool.false_ne_true hc.1
    | step e timestamp r0 hr ih => exact gameLoopStep_inv e r0 timestamp ih
  exact ⟨hinv r h, fun config rand hwf =>
    shouldTriggerControlFlip_suppressed r.state config rand hwf⟩

/-- Witness for C9 at the freshly started CHAOS game. -/
theorem control_inversion_exactly_one_state_witness :
    ¬((⟨startedState GameMode.CHAOS, 0, 0⟩ : LoopRefs).state.controlFlipWarning = true ∧
      (⟨startedState GameMode.CHAOS, 0, 0⟩ : LoopRefs).state.isControlFlipped = true) ∧
    (∀ (config : PhaseConfig) (rand : ℚ),
      (⟨startedState GameMode.CHAOS, 0, 0⟩ : LoopRefs).state.controlFlipWarning = true ∨
      (⟨startedState GameMode.CHAOS, 0, 0⟩ : LoopRefs).state.isControlFlipped = true →
      shouldTriggerControlFlip
        (⟨startedState GameMode.CHAOS, 0, 0⟩ : LoopRefs).state config rand = false) :=
  control_inversion_exactly_one_state ⟨startedState GameMode.CHAOS, 0, 0⟩
    (Reachable.start GameMode.CHAOS ⟨createInitialState GameMode.CHAOS, 0, 0⟩ 0
      (Reachable.boot 0))
